import Mathlib

/-!
Shallow embedding of the edu-mrh.de client-side navigation scripts.

Three variants of the navigation controller live in the repository:
- baseScript.js: the scroll-spy navigation system (class BaseNavigation,
  globals NAV_CONFIG / NAV_STATE);
- an unnamed chapter-paging script (globals currentChapter / totalChapters,
  functions navigateToChapter, saveProgress, loadProgress, keydown handler);
- an unnamed unified script (class SiteManager, globals CONFIG / STATE,
  methods navigateToSection, navigateNext, navigatePrevious, toggleSidebar).

JavaScript numbers that only ever hold integers (scroll offsets, element
offsets, chapter indices) are modelled as Int or Nat; the one place where
IEEE special values matter (the progress-bar percentage, which divides by a
possibly-zero document height difference) is modelled by an explicit value
type JSVal with NaN and the infinities, over exact rationals.

DOM effects the code performs (class toggling, inline styles, the URL
fragment, window scrolling) are modelled as explicit record fields of the
corresponding state structure; console logging is treated as external
output and not part of the state.
-/

/-- JavaScript number resulting from the progress-bar arithmetic: NaN, the
two infinities, or a finite value (modelled exactly as a rational). -/
inductive JSVal where
  | nan : JSVal
  | inf : JSVal
  | ninf : JSVal
  | fin : ℚ → JSVal
deriving DecidableEq

/-- JavaScript division of two finite numbers: division by (positive) zero
yields NaN when the numerator is zero, otherwise a signed infinity. -/
def jsDivFin (a b : ℚ) : JSVal :=
  if b = 0 then
    if a = 0 then JSVal.nan else if 0 < a then JSVal.inf else JSVal.ninf
  else JSVal.fin (a / b)

/-- JavaScript multiplication of a possibly non-finite value by a finite
constant (infinity times zero is NaN). -/
def jsMulByFin : JSVal → ℚ → JSVal
  | JSVal.nan, _ => JSVal.nan
  | JSVal.inf, c => if 0 < c then JSVal.inf else if c < 0 then JSVal.ninf else JSVal.nan
  | JSVal.ninf, c => if 0 < c then JSVal.ninf else if c < 0 then JSVal.inf else JSVal.nan
  | JSVal.fin a, c => JSVal.fin (a * c)

/-- JavaScript Math.max: NaN-propagating maximum. -/
def jsMax : JSVal → JSVal → JSVal
  | JSVal.nan, _ => JSVal.nan
  | _, JSVal.nan => JSVal.nan
  | JSVal.inf, _ => JSVal.inf
  | _, JSVal.inf => JSVal.inf
  | JSVal.ninf, b => b
  | a, JSVal.ninf => a
  | JSVal.fin a, JSVal.fin b => JSVal.fin (max a b)

/-- JavaScript Math.min: NaN-propagating minimum. -/
def jsMin : JSVal → JSVal → JSVal
  | JSVal.nan, _ => JSVal.nan
  | _, JSVal.nan => JSVal.nan
  | JSVal.ninf, _ => JSVal.ninf
  | _, JSVal.ninf => JSVal.ninf
  | JSVal.inf, b => b
  | a, JSVal.inf => a
  | JSVal.fin a, JSVal.fin b => JSVal.fin (min a b)

/-- updateProgressBar of baseScript.js, lines 220-228: the percentage
written to the progress bar width. The source computes
Math.min(Math.max((scrollTop / (documentHeight - windowHeight)) * 100, 0), 100)
with no guard on the denominator. -/
def progressWidth (scrollTop documentHeight windowHeight : ℚ) : JSVal :=
  jsMin (jsMax (jsMulByFin (jsDivFin scrollTop (documentHeight - windowHeight)) 100) (JSVal.fin 0)) (JSVal.fin 100)

/-- One entry of NAV_STATE.sections as built by collectSections in
baseScript.js, line 87: the element id and its document offsets. -/
structure NavSection where
  id : String
  offsetTop : Int
  offsetBottom : Int
deriving DecidableEq

/-- NAV_CONFIG of baseScript.js, lines 11-30 (the CSS selector strings are
DOM wiring and are not part of the model). -/
structure NavConfig where
  scrollOffset : Int
  smoothScroll : Bool
  scrollDuration : Int
  mobileBreakpoint : Int
  enableHashNavigation : Bool
  enableProgressBar : Bool
  enableActiveHighlight : Bool
  updateUrlOnScroll : Bool
deriving DecidableEq

/-- The default NAV_CONFIG literal of baseScript.js. -/
def NAV_CONFIG : NavConfig :=
  { scrollOffset := 80
    smoothScroll := true
    scrollDuration := 800
    mobileBreakpoint := 1024
    enableHashNavigation := true
    enableProgressBar := true
    enableActiveHighlight := true
    updateUrlOnScroll := false }

/-- NAV_STATE of baseScript.js together with the DOM facts the class reads
and writes: window scroll position, document and viewport heights, the URL
fragment, the body inline overflow style, the sidebar and menu-button
active classes, the highlighted sidebar link, and the progress-bar width. -/
structure NavState where
  isMobile : Bool
  sidebarOpen : Bool
  currentSection : Option String
  sections : List NavSection
  scrolling : Bool
  pageYOffset : Int
  documentHeight : Int
  viewportHeight : Int
  urlHash : Option String
  bodyOverflow : String
  sidebarActive : Bool
  menuBtnActive : Bool
  activeLink : Option String
  progressBarWidth : JSVal
deriving DecidableEq

/-- The backward scan of updateActiveSection, baseScript.js lines 233-240:
iterate sections from the last index down to 0 and return the id of the
first section encountered (hence the last in list order) whose offsetTop
is at most the threshold scroll position; none when no section qualifies. -/
def findCurrentSection (sections : List NavSection) (scrollPosition : Int) : Option String :=
  match sections with
  | [] => none
  | s :: rest =>
    match findCurrentSection rest scrollPosition with
    | some k => some k
    | none => if scrollPosition ≥ s.offsetTop then some s.id else none

/-- Stated from the claim text, for comparison with findCurrentSection:
the last section in document order (the first when scanning from the
bottom) whose topOffset is at most the threshold. -/
def lastQualifyingSection (sections : List NavSection) (threshold : Int) : Option String :=
  (sections.reverse.find? (fun sec => sec.offsetTop ≤ threshold)).map NavSection.id

/-- updateHash of baseScript.js, lines 403-410: write the fragment (via
pushState or direct assignment, both modelled as setting the fragment)
unless hash navigation is disabled. -/
def updateHash (cfg : NavConfig) (s : NavState) (sectionId : String) : NavState :=
  if cfg.enableHashNavigation then { s with urlHash := some sectionId } else s

/-- updateActiveSection of baseScript.js, lines 230-248: resolve the
current section from pageYOffset + scrollOffset + 100, and when it changed
update NAV_STATE.currentSection, re-highlight the links, and (only when
updateUrlOnScroll is set and a section resolved) push the fragment. -/
def updateActiveSection (cfg : NavConfig) (s : NavState) : NavState :=
  if cfg.enableActiveHighlight then
    let cur := findCurrentSection s.sections (s.pageYOffset + cfg.scrollOffset + 100)
    if cur = s.currentSection then s
    else
      let s1 := { s with currentSection := cur, activeLink := cur }
      match cur with
      | some cid => if cfg.updateUrlOnScroll then updateHash cfg s1 cid else s1
      | none => s1
  else s

/-- updateProgressBar of baseScript.js applied to the state: recompute the
bar width from the current scroll position and heights. -/
def updateProgressBarS (s : NavState) : NavState :=
  { s with progressBarWidth :=
      progressWidth (s.pageYOffset : ℚ) (s.documentHeight : ℚ) (s.viewportHeight : ℚ) }

/-- handleScroll of baseScript.js, lines 204-210: bail out while an
animated scroll is in flight, otherwise run the resolver and (when the
progress bar is enabled) the progress-bar update. -/
def handleScroll (cfg : NavConfig) (s : NavState) : NavState :=
  if s.scrolling then s
  else
    let s1 := updateActiveSection cfg s
    if cfg.enableProgressBar then updateProgressBarS s1 else s1

/-- scrollToSection of baseScript.js, lines 264-288, modelled as the state
at completion of the (synchronously summarised) animated scroll: unknown
ids only log and change nothing; otherwise the scrolling flag is raised,
the window ends at offsetTop - scrollOffset (the easing reaches exactly 1),
the completion callback clears the flag, writes the fragment when requested
and hash navigation is enabled, and re-runs the resolver. The smooth and
non-smooth branches end in the same state. -/
def scrollToSection (cfg : NavConfig) (s : NavState) (sectionId : String) (updateHashFlag : Bool) : NavState :=
  match s.sections.find? (fun sec => sec.id = sectionId) with
  | none => s
  | some sec =>
    let s1 := { s with scrolling := true, pageYOffset := sec.offsetTop - cfg.scrollOffset }
    let s2 := { s1 with scrolling := false }
    let s3 := if updateHashFlag && cfg.enableHashNavigation then updateHash cfg s2 sectionId else s2
    updateActiveSection cfg s3

/-- toggleSidebar of baseScript.js, lines 310-325: flip sidebarOpen, force
the sidebar and menu-button classes to the new value, and on mobile layout
set the body inline overflow to hidden (open) or the empty string (closed). -/
def toggleSidebar (s : NavState) : NavState :=
  let newOpen := !s.sidebarOpen
  { s with sidebarOpen := newOpen
           sidebarActive := newOpen
           menuBtnActive := newOpen
           bodyOverflow :=
             if s.isMobile then (if newOpen then "hidden" else "") else s.bodyOverflow }

/-- closeSidebar of baseScript.js, lines 332-335: toggle only when open. -/
def closeSidebar (s : NavState) : NavState :=
  if s.sidebarOpen then toggleSidebar s else s

/-- detectDevice of baseScript.js, lines 79-83: recompute isMobile from the
window width (the body class toggles are DOM decoration). -/
def detectDevice (cfg : NavConfig) (s : NavState) (innerWidth : Int) : NavState :=
  { s with isMobile := innerWidth ≤ cfg.mobileBreakpoint }

/-- handleResize of baseScript.js, lines 347-355: re-detect the device,
re-read section offsets (layout is unchanged in this model, so
recalculateSections is the identity), force-close the sidebar when the
breakpoint was crossed from mobile to desktop while open, then re-run the
resolver. -/
def handleResize (cfg : NavConfig) (s : NavState) (innerWidth : Int) : NavState :=
  let wasMobile := s.isMobile
  let s1 := detectDevice cfg s innerWidth
  let s2 := if wasMobile && !s1.isMobile && s1.sidebarOpen then closeSidebar s1 else s1
  updateActiveSection cfg s2

/-- The three sections of the scenario in the claims: intro at the top,
basics at 1000, advanced at 2500. -/
def demoSections : List NavSection :=
  [ { id := "intro", offsetTop := 0, offsetBottom := 1000 }
  , { id := "basics", offsetTop := 1000, offsetBottom := 2500 }
  , { id := "advanced", offsetTop := 2500, offsetBottom := 3300 } ]

/-- A baseScript state over the demo sections at a given scroll position. -/
def demoNavState (pos : Int) : NavState :=
  { isMobile := false
    sidebarOpen := false
    currentSection := none
    sections := demoSections
    scrolling := false
    pageYOffset := pos
    documentHeight := 3300
    viewportHeight := 800
    urlHash := none
    bodyOverflow := ""
    sidebarActive := false
    menuBtnActive := false
    activeLink := none
    progressBarWidth := JSVal.fin 0 }

/-- STATE of the unified SiteManager script together with the DOM facts it
reads and writes. STATE.sections there is the list of content-section ids;
visibleSection is the section carrying the active class after showSection;
activeLink is the highlighted sidebar link. CONFIG in that script fixes
enableHashNavigation and enableSmoothScroll to true, which the definitions
below inline. -/
structure SiteState where
  currentSection : String
  sections : List String
  isMobile : Bool
  sidebarOpen : Bool
  sidebarActive : Bool
  menuBtnActive : Bool
  urlHash : Option String
  visibleSection : Option String
  activeLink : Option String
  scrollTop : Int
  progressBarWidth : ℚ
deriving DecidableEq

/-- Array.prototype.indexOf scanning with an accumulator: index of the
first occurrence, or -1. -/
def jsIndexOfAux (l : List String) (x : String) (acc : Int) : Int :=
  match l with
  | [] => -1
  | y :: ys => if y = x then acc else jsIndexOfAux ys x (acc + 1)

/-- Array.prototype.indexOf as used by the SiteManager script. -/
def jsIndexOf (l : List String) (x : String) : Int :=
  jsIndexOfAux l x 0

/-- closeSidebar of the SiteManager script, lines 482-494, in the standard
page configuration where the sidebar and menu-button elements exist. -/
def closeSidebarP1 (st : SiteState) : SiteState :=
  { st with sidebarOpen := false, sidebarActive := false, menuBtnActive := false }

/-- toggleSidebar of the SiteManager script, lines 467-480, in the standard
page configuration: flip sidebarOpen and flip the classes (classList.toggle
with no force argument flips each class independently). -/
def toggleSidebarP1 (st : SiteState) : SiteState :=
  { st with sidebarOpen := !st.sidebarOpen
            sidebarActive := !st.sidebarActive
            menuBtnActive := !st.menuBtnActive }

/-- updateProgressBar of the SiteManager script, lines 453-461: width is
(indexOf currentSection + 1) / number of sections, as a percentage. Only
called with a registered current section, so the denominator is nonzero
there; the rational value is exact where the source uses a float. -/
def updateProgressBarP1 (st : SiteState) : SiteState :=
  { st with progressBarWidth :=
      ((jsIndexOf st.sections st.currentSection + 1 : ℚ) / (st.sections.length : ℚ)) * 100 }

/-- navigateToSectionWithoutHash of the SiteManager script, lines 386-409:
for a registered id, set the current section, show it, highlight its link,
refresh the progress bar, scroll to the top, and on mobile close the
sidebar; for an unregistered id do nothing. -/
def navigateToSectionWithoutHash (st : SiteState) (sectionId : String) : SiteState :=
  if sectionId ∈ st.sections then
    let st1 := { st with currentSection := sectionId
                         visibleSection := some sectionId
                         activeLink := some sectionId }
    let st2 := updateProgressBarP1 st1
    let st3 := { st2 with scrollTop := 0 }
    if st3.isMobile then closeSidebarP1 st3 else st3
  else st

/-- navigateToSection of the SiteManager script, lines 371-384: warn and
abort on an unregistered id, otherwise write the fragment (hash navigation
is enabled in CONFIG) and navigate. -/
def navigateToSection (st : SiteState) (sectionId : String) : SiteState :=
  if sectionId ∈ st.sections then
    navigateToSectionWithoutHash { st with urlHash := some sectionId } sectionId
  else st

/-- navigateNext of the SiteManager script, lines 435-440: index the
current section and move to the following one unless already at the last
index (an out-of-range array access would yield undefined, which
navigateToSection would reject; that branch is unreachable here). -/
def navigateNext (st : SiteState) : SiteState :=
  let currentIndex := jsIndexOf st.sections st.currentSection
  if currentIndex < (st.sections.length : Int) - 1 then
    match st.sections[(currentIndex + 1).toNat]? with
    | some nxt => navigateToSection st nxt
    | none => st
  else st

/-- navigatePrevious of the SiteManager script, lines 442-447. -/
def navigatePrevious (st : SiteState) : SiteState :=
  let currentIndex := jsIndexOf st.sections st.currentSection
  if currentIndex > 0 then
    match st.sections[(currentIndex - 1).toNat]? with
    | some prv => navigateToSection st prv
    | none => st
  else st

/-- totalChapters of the chapter-paging script, line 5. -/
def totalChapters : Nat := 5

/-- Modelled from the spec: the chapter-paging HTML document (not under
src/) provides one content-section per chapter index 0..totalChapters, so
the page has totalChapters + 1 content sections and the progress formula
currentChapter / totalChapters reaches 100 percent at the last index. -/
def intendedChapterCount : Nat := totalChapters + 1

/-- State of the chapter-paging script: the currentChapter global plus the
DOM facts it touches. numSections is how many content-section elements the
page has; activeSections lists the indices currently carrying the active
class; activeLinkIndex is the highlighted sidebar link; isMobileWidth is
whether window.innerWidth is at most 1024. -/
structure ChapterState where
  currentChapter : Int
  numSections : Nat
  activeSections : List Nat
  activeLinkIndex : Option Nat
  scrollTop : Int
  progressBarWidth : ℚ
  isMobileWidth : Bool
  sidebarActive : Bool
deriving DecidableEq

/-- navigateToChapter of the chapter-paging script, lines 10-34: first
remove the active class from every content section, then, only if the
indexed section exists (the index argument may be NaN, modelled as none,
or out of range), activate it, record the chapter, refresh the progress
bar, highlight the sidebar link, scroll to the top, and close the mobile
sidebar when the viewport is narrow. -/
def navigateToChapter (st : ChapterState) (chapterNumber : Option Int) : ChapterState :=
  let cleared := { st with activeSections := ([] : List Nat) }
  match chapterNumber with
  | none => cleared
  | some ch =>
    if 0 ≤ ch ∧ ch < (st.numSections : Int) then
      let shown := { cleared with activeSections := [ch.toNat], currentChapter := ch }
      let withProgress :=
        { shown with progressBarWidth := ((ch : ℚ) / (totalChapters : ℚ)) * 100 }
      let withLink := { withProgress with activeLinkIndex := some ch.toNat }
      let scrolled := { withLink with scrollTop := 0 }
      if st.isMobileWidth then { scrolled with sidebarActive := false } else scrolled
    else cleared

/-- The ArrowRight branch of the keydown handler in the chapter-paging
script, lines 153-156. -/
def keydownArrowRight (st : ChapterState) : ChapterState :=
  if st.currentChapter < (totalChapters : Int) then
    navigateToChapter st (some (st.currentChapter + 1))
  else st

/-- The ArrowLeft branch of the keydown handler in the chapter-paging
script, lines 149-152. -/
def keydownArrowLeft (st : ChapterState) : ChapterState :=
  if st.currentChapter > 0 then
    navigateToChapter st (some (st.currentChapter - 1))
  else st

/-- Accumulate leading decimal digits; none when no digit was read yet. -/
def parseDigits : List Char → Option Nat → Option Nat
  | [], acc => acc
  | c :: cs, acc =>
    if c.isDigit then parseDigits cs (some (acc.getD 0 * 10 + (c.toNat - 48)))
    else acc

/-- Modelled JavaScript parseInt in the decimal regime exercised here (no
radix argument, no hexadecimal prefix in the inputs): skip leading
whitespace, read an optional sign and then leading decimal digits; NaN,
modelled as none, when no digit is read. -/
def jsParseInt (s : String) : Option Int :=
  let cs := s.data.dropWhile (fun c => c = ' ' ∨ c = '\t' ∨ c = '\n')
  match cs with
  | '-' :: rest => (parseDigits rest none).map (fun n => -(n : Int))
  | '+' :: rest => (parseDigits rest none).map (fun n => (n : Int))
  | _ => (parseDigits cs none).map (fun n => (n : Int))

/-- saveProgress of the chapter-paging script, lines 257-259: the value
written under the single localStorage key (localStorage stringifies the
chapter index). -/
def saveProgress (st : ChapterState) : Option String :=
  some (toString st.currentChapter)

/-- loadProgress of the chapter-paging script, lines 261-266: a missing
value (getItem returned null) does nothing; otherwise navigateToChapter is
called on parseInt of the stored string. -/
def loadProgress (saved : Option String) (st : ChapterState) : ChapterState :=
  match saved with
  | none => st
  | some str => navigateToChapter st (jsParseInt str)

/-- Counterexample fixture for the resolver bound: a section 50 pixels
below the top one, inside the 100-pixel lookahead window. -/
def cexA : NavSection := { id := "a", offsetTop := 0, offsetBottom := 40 }

/-- The lower section of the counterexample fixture. -/
def cexB : NavSection := { id := "b", offsetTop := 50, offsetBottom := 120 }

/-- The two-section registry of the resolver-bound counterexample. -/
def cexSections : List NavSection := [cexA, cexB]

/-- Mobile state with the sidebar open and the scroll lock applied, about
to be resized to desktop width. -/
def c4State : NavState :=
  { isMobile := true
    sidebarOpen := true
    currentSection := some ("intro")
    sections := demoSections
    scrolling := false
    pageYOffset := 0
    documentHeight := 3300
    viewportHeight := 800
    urlHash := none
    bodyOverflow := "hidden"
    sidebarActive := true
    menuBtnActive := true
    activeLink := some ("intro")
    progressBarWidth := JSVal.fin 0 }

/-- State with an animated scroll in flight. -/
def c5State : NavState := { demoNavState 1200 with scrolling := true }

/-- Chapter-paging state with chapter 2 active and a nonzero scroll. -/
def c8State : ChapterState :=
  { currentChapter := 2
    numSections := 6
    activeSections := [2]
    activeLinkIndex := some 2
    scrollTop := 100
    progressBarWidth := 40
    isMobileWidth := false
    sidebarActive := false }

/-- Mobile state, sidebar closed, with a pre-existing inline overflow
value the sidebar code did not write. -/
def c9State : NavState := { demoNavState 0 with isMobile := true, bodyOverflow := "auto" }

/-- SiteManager state sitting on the last registered section. -/
def siteLastState : SiteState :=
  { currentSection := "basics"
    sections := ["intro", "basics"]
    isMobile := false
    sidebarOpen := false
    sidebarActive := false
    menuBtnActive := false
    urlHash := none
    visibleSection := some ("basics")
    activeLink := some ("basics")
    scrollTop := 0
    progressBarWidth := 100 }

/-- SiteManager state sitting on the first registered section. -/
def siteFirstState : SiteState :=
  { siteLastState with
      currentSection := "intro"
      visibleSection := some ("intro")
      activeLink := some ("intro") }

/-- Chapter-paging state on the last chapter of the intended six-section
document. -/
def chapterLastState : ChapterState :=
  { currentChapter := 5
    numSections := 6
    activeSections := [5]
    activeLinkIndex := some 5
    scrollTop := 0
    progressBarWidth := 100
    isMobileWidth := false
    sidebarActive := false }

/-- Chapter-paging state on the first chapter. -/
def chapterFirstState : ChapterState :=
  { chapterLastState with
      currentChapter := 0
      activeSections := [0]
      activeLinkIndex := some 0
      progressBarWidth := 0 }

theorem findCurrentSection_eq_lastQualifying (sections : List NavSection) (t : Int) :
    findCurrentSection sections t = lastQualifyingSection sections t := by
  induction sections with
  | nil => rfl
  | cons s rest ih =>
    unfold findCurrentSection
    rw [ih]
    unfold lastQualifyingSection
    rw [List.reverse_cons, List.find?_append]
    cases hr : rest.reverse.find? (fun sec => decide (sec.offsetTop ≤ t)) with
    | some sec => simp [Option.or]
    | none =>
      simp only [Option.or, Option.map_none']
      by_cases h : s.offsetTop ≤ t
      · rw [List.find?_cons_of_pos _ (by simpa using h), if_pos (by omega)]
        simp
      · rw [List.find?_cons_of_neg _ (by simpa using h), if_neg (by omega)]
        simp

theorem findCurrentSection_eq_none_iff (sections : List NavSection) (t : Int) :
    findCurrentSection sections t = none ↔ ∀ sec ∈ sections, ¬ sec.offsetTop ≤ t := by
  rw [findCurrentSection_eq_lastQualifying]
  unfold lastQualifyingSection
  simp [List.find?_eq_none]

theorem findCurrentSection_eq_some (sections : List NavSection) (t : Int) (k : String)
    (h : findCurrentSection sections t = some k) :
    ∃ T ∈ sections, T.id = k ∧ T.offsetTop ≤ t := by
  rw [findCurrentSection_eq_lastQualifying] at h
  unfold lastQualifyingSection at h
  rcases Option.map_eq_some'.mp h with ⟨T, hT, hid⟩
  refine ⟨T, ?_, hid, ?_⟩
  · exact List.mem_reverse.mp (List.mem_of_find?_eq_some hT)
  · simpa using List.find?_some hT

theorem jsIndexOfAux_append_last (l : List String) (x : String) (acc : Int) (h : x ∉ l) :
    jsIndexOfAux (l ++ [x]) x acc = acc + l.length := by
  induction l generalizing acc with
  | nil => simp [jsIndexOfAux]
  | cons y ys ih =>
    have hyx : y ≠ x := by
      intro e
      exact h (e ▸ List.mem_cons_self y ys)
    have hxys : x ∉ ys := fun m => h (List.mem_cons_of_mem _ m)
    simp only [List.cons_append, jsIndexOfAux, if_neg hyx, List.append_eq]
    rw [ih (acc + 1) hxys]
    simp [List.length_cons]
    ring

theorem jsIndexOf_append_last (l : List String) (x : String) (h : x ∉ l) :
    jsIndexOf (l ++ [x]) x = l.length := by
  rw [jsIndexOf, jsIndexOfAux_append_last l x 0 h]
  ring

theorem updateActiveSection_urlHash (cfg : NavConfig) (s : NavState)
    (h : cfg.updateUrlOnScroll = false) :
    (updateActiveSection cfg s).urlHash = s.urlHash := by
  unfold updateActiveSection
  rw [h]
  split
  · split
    · next hft => exact absurd hft Bool.false_ne_true
    · simp only []
      split
      · rfl
      · split <;> rfl
  · rfl

theorem handleScroll_urlHash (cfg : NavConfig) (s : NavState)
    (h : cfg.updateUrlOnScroll = false) :
    (handleScroll cfg s).urlHash = s.urlHash := by
  unfold handleScroll
  split
  · rfl
  · split
    · simp only [updateProgressBarS]
      exact updateActiveSection_urlHash cfg s h
    · exact updateActiveSection_urlHash cfg s h

/-- C1: updateActiveSection scans the registered sections from last to
first in document order and selects the last one whose topOffset is at
most scrollPosition + configured offset + the fixed 100-pixel lookahead,
with none when no section qualifies; on the intro/basics/advanced registry
with offset 80, scroll 1200 resolves basics, 50 resolves intro, and 2600
resolves advanced. -/
theorem C1_resolver_selects_last_qualifying :
    (∀ (sections : List NavSection) (t : Int),
        findCurrentSection sections t = lastQualifyingSection sections t)
    ∧ (updateActiveSection NAV_CONFIG (demoNavState 1200)).currentSection = some ("basics")
    ∧ (updateActiveSection NAV_CONFIG (demoNavState 50)).currentSection = some ("intro")
    ∧ (updateActiveSection NAV_CONFIG (demoNavState 2600)).currentSection = some ("advanced")
    ∧ findCurrentSection demoSections (-300 + NAV_CONFIG.scrollOffset + 100) = none :=
  ⟨findCurrentSection_eq_lastQualifying, by decide, by decide, by decide, by decide⟩

/-- C2: the claim states the progress division is guarded so that a
denominator of at most zero always yields 0 percent and never NaN. The
source has no guard: at scrollTop 0 with documentHeight equal to
viewportHeight it computes 0/0, which is NaN and survives the clamp (and
with a positive scrollTop the clamp would yield 100, not 0); only a
strictly negative denominator is clamped to 0. -/
theorem C2_progress_unguarded_nan :
    progressWidth 0 800 800 = JSVal.nan
    ∧ progressWidth 0 700 800 = JSVal.fin 0
    ∧ progressWidth 100 800 800 = JSVal.fin 100 :=
  ⟨by norm_num [progressWidth, jsDivFin, jsMulByFin, jsMax, jsMin],
   by norm_num [progressWidth, jsDivFin, jsMulByFin, jsMax, jsMin],
   by norm_num [progressWidth, jsDivFin, jsMulByFin, jsMax, jsMin]⟩

/-- C3: navigateNext on the last registered section and navigatePrevious
on the first are no-ops of the whole state in the SiteManager variant, and
the ArrowRight and ArrowLeft keydown branches of the chapter-paging
variant are no-ops at the last chapter index (totalChapters, in the
intended document with totalChapters + 1 sections) and at chapter 0. -/
theorem C3_boundary_navigation_noop :
    (∀ (st : SiteState) (l : List String) (x : String),
        st.sections = l ++ [x] → x ∉ l → st.currentSection = x →
        navigateNext st = st)
    ∧ (∀ (st : SiteState) (x : String) (rest : List String),
        st.sections = x :: rest → st.currentSection = x →
        navigatePrevious st = st)
    ∧ (∀ ch : ChapterState, ch.numSections = intendedChapterCount →
        ch.currentChapter = (totalChapters : Int) → keydownArrowRight ch = ch)
    ∧ (∀ ch : ChapterState, ch.currentChapter = 0 → keydownArrowLeft ch = ch) := by
  refine ⟨?_, ?_, ?_, ?_⟩
  · intro st l x h1 h2 h3
    unfold navigateNext
    rw [h3, h1, jsIndexOf_append_last l x h2]
    rw [if_neg (by simp [List.length_append])]
  · intro st x rest h1 h2
    unfold navigatePrevious
    rw [h2, h1]
    simp [jsIndexOf, jsIndexOfAux]
  · intro ch _ h2
    unfold keydownArrowRight
    rw [h2, if_neg (by omega)]
  · intro ch h
    unfold keydownArrowLeft
    rw [h, if_neg (by omega)]

/-- Witness for C3 at concrete boundary states of both variants. -/
theorem C3_boundary_navigation_noop_witness :
    navigateNext siteLastState = siteLastState
    ∧ navigatePrevious siteFirstState = siteFirstState
    ∧ keydownArrowRight chapterLastState = chapterLastState
    ∧ keydownArrowLeft chapterFirstState = chapterFirstState :=
  ⟨C3_boundary_navigation_noop.1 siteLastState [("intro")] ("basics") rfl (by decide) rfl,
   C3_boundary_navigation_noop.2.1 siteFirstState ("intro") [("basics")] rfl rfl,
   C3_boundary_navigation_noop.2.2.1 chapterLastState rfl rfl,
   C3_boundary_navigation_noop.2.2.2 chapterFirstState rfl⟩

/-- C4: resizing from width 900 (mobile) to 1200 (desktop) with the
sidebar open does force-close the sidebar, but the body scroll lock is NOT
cleared: handleResize runs detectDevice first, so when closeSidebar calls
toggleSidebar the isMobile flag is already false and the mobile-only
overflow reset is skipped, leaving the inline overflow at hidden where the
claim requires it restored. -/
theorem C4_resize_keeps_scroll_lock :
    (handleResize NAV_CONFIG c4State 1200).sidebarOpen = false
    ∧ (handleResize NAV_CONFIG c4State 1200).sidebarActive = false
    ∧ (handleResize NAV_CONFIG c4State 1200).isMobile = false
    ∧ (handleResize NAV_CONFIG c4State 1200).bodyOverflow = "hidden"
    ∧ c4State.bodyOverflow = "hidden" :=
  ⟨by decide, by decide, by decide, by decide, rfl⟩

/-- C5: while the scrolling flag raised by scrollToSection is set, a
scroll-spy invocation is the identity on the whole navigation state; in
particular it never overwrites currentSection. -/
theorem C5_scrollspy_suppressed_while_navigating (cfg : NavConfig) (s : NavState)
    (h : s.scrolling = true) : handleScroll cfg s = s := by
  simp [handleScroll, h]

/-- Witness for C5 at a concrete in-flight state. -/
theorem C5_scrollspy_suppressed_witness : handleScroll NAV_CONFIG c5State = c5State :=
  C5_scrollspy_suppressed_while_navigating NAV_CONFIG c5State rfl

/-- C6: navigating to an id absent from the registry is a silent no-op in
both variants: scrollToSection of baseScript.js and navigateToSection of
the SiteManager script return the state unchanged (no scroll, no flag, no
fragment, no highlighting; the functions are total, so nothing is thrown;
the console warning is external output outside the state). -/
theorem C6_unknown_target_silent_noop :
    (∀ (cfg : NavConfig) (s : NavState) (sectionId : String) (u : Bool),
        (∀ sec ∈ s.sections, sec.id ≠ sectionId) →
        scrollToSection cfg s sectionId u = s)
    ∧ (∀ (st : SiteState) (sectionId : String),
        sectionId ∉ st.sections → navigateToSection st sectionId = st) := by
  constructor
  · intro cfg s sectionId u h
    unfold scrollToSection
    have hf : s.sections.find? (fun sec => sec.id = sectionId) = none := by
      rw [List.find?_eq_none]
      intro a ha
      simpa using h a ha
    rw [hf]
  · intro st sectionId h
    unfold navigateToSection
    rw [if_neg h]

/-- Witness for C6 at a concrete unregistered id. -/
theorem C6_unknown_target_silent_noop_witness :
    scrollToSection NAV_CONFIG (demoNavState 0) ("nope") true = demoNavState 0
    ∧ navigateToSection siteFirstState ("nope") = siteFirstState :=
  ⟨C6_unknown_target_silent_noop.1 NAV_CONFIG (demoNavState 0) ("nope") true (by decide),
   C6_unknown_target_silent_noop.2 siteFirstState ("nope") (by decide)⟩

/-- C7 counterexample: with sections a (top 0) and b (top 50), resolving
at the topOffset of a with offset 0 returns b, yet no registered section
with the id b has topOffset at most the topOffset of a, refuting the
claimed bound. -/
theorem C7_resolve_escapes_claimed_bound :
    cexA ∈ cexSections
    ∧ findCurrentSection cexSections (cexA.offsetTop + 0 + 100) = some (cexB.id)
    ∧ cexSections.all
        (fun T => !(decide (T.offsetTop ≤ cexA.offsetTop) && (T.id == cexB.id))) = true := by
  decide

/-- C7 amended: for every registered section S, resolving at the topOffset
of S with offset 0 returns the id of some registered section whose
topOffset is at most the topOffset of S plus the fixed 100-pixel
lookahead (in particular the result is never none). -/
theorem C7_resolve_within_lookahead (sections : List NavSection) (S : NavSection)
    (hS : S ∈ sections) :
    ∃ T ∈ sections, findCurrentSection sections (S.offsetTop + 0 + 100) = some T.id
      ∧ T.offsetTop ≤ S.offsetTop + 0 + 100 := by
  cases hr : findCurrentSection sections (S.offsetTop + 0 + 100) with
  | none =>
    exact absurd (by omega) ((findCurrentSection_eq_none_iff sections _).mp hr S hS)
  | some k =>
    rcases findCurrentSection_eq_some sections _ k hr with ⟨T, hTmem, hTid, hTle⟩
    exact ⟨T, hTmem, by rw [hTid], hTle⟩

/-- Witness for the amended C7 on the demo registry. -/
theorem C7_resolve_within_lookahead_witness :
    ∃ T ∈ demoSections,
      findCurrentSection demoSections
          ((NavSection.mk ("basics") 1000 2500).offsetTop + 0 + 100) = some T.id
        ∧ T.offsetTop ≤ (NavSection.mk ("basics") 1000 2500).offsetTop + 0 + 100 :=
  C7_resolve_within_lookahead demoSections (NavSection.mk ("basics") 1000 2500) (by decide)

/-- C8: a missing stored value is ignored and a stored numeric index is
restored, but an invalid stored value is NOT ignored: navigateToChapter
strips the active class from every content section before validating the
parsed index, so loading with an unparsable value blanks all sections even
though currentChapter stays unchanged. -/
theorem C8_invalid_saved_value_blanks_sections :
    loadProgress none c8State = c8State
    ∧ saveProgress c8State = some ("2")
    ∧ (loadProgress (saveProgress c8State) c8State).currentChapter = 2
    ∧ (loadProgress (saveProgress c8State) c8State).activeSections = [2]
    ∧ (loadProgress (some ("abc")) c8State).currentChapter = c8State.currentChapter
    ∧ (loadProgress (some ("abc")) c8State).activeSections = []
    ∧ c8State.activeSections = [2] :=
  ⟨rfl, by decide, by decide, by decide, by decide, by decide, rfl⟩

/-- C9 counterexample: on mobile with the sidebar closed and a
pre-existing inline overflow value, two toggles return sidebarOpen to its
original value but write the empty string over the original overflow, so
the round-trip does not restore the overflow style for every starting
state. -/
theorem C9_double_toggle_not_restoring :
    (toggleSidebar (toggleSidebar c9State)).sidebarOpen = c9State.sidebarOpen
    ∧ (toggleSidebar (toggleSidebar c9State)).bodyOverflow = ""
    ∧ c9State.bodyOverflow = "auto"
    ∧ (toggleSidebar (toggleSidebar c9State)).bodyOverflow ≠ c9State.bodyOverflow :=
  ⟨by decide, by decide, rfl, by decide⟩

/-- C9 amended: two toggles always return sidebarOpen to its original
value (in both variants; the SiteManager toggle is an involution of the
whole state); the body overflow style is restored whenever the layout is
desktop (the toggle never touches it there) or the initial inline overflow
is the value the toggle itself maintains, namely hidden while open and the
empty string while closed; in general the second toggle writes that
maintained value, not the literal prior one. -/
theorem C9_double_toggle_roundtrip :
    (∀ s : NavState, (toggleSidebar (toggleSidebar s)).sidebarOpen = s.sidebarOpen)
    ∧ (∀ s : NavState, s.isMobile = false →
        (toggleSidebar (toggleSidebar s)).bodyOverflow = s.bodyOverflow)
    ∧ (∀ s : NavState,
        s.bodyOverflow = (if s.sidebarOpen then "hidden" else "") →
        (toggleSidebar (toggleSidebar s)).bodyOverflow = s.bodyOverflow)
    ∧ (∀ st : SiteState, toggleSidebarP1 (toggleSidebarP1 st) = st) := by
  refine ⟨?_, ?_, ?_, ?_⟩
  · intro s
    simp [toggleSidebar]
  · intro s h
    simp [toggleSidebar, h]
  · intro s h
    by_cases hm : s.isMobile
    · cases hso : s.sidebarOpen
      · rw [hso] at h
        simp [toggleSidebar, hm, hso, h]
      · rw [hso] at h
        simp [toggleSidebar, hm, hso, h]
    · simp [toggleSidebar, hm]
  · intro st
    simp [toggleSidebarP1]

/-- Witness for the amended C9 at concrete states. -/
theorem C9_double_toggle_roundtrip_witness :
    (toggleSidebar (toggleSidebar (demoNavState 0))).bodyOverflow = (demoNavState 0).bodyOverflow
    ∧ (toggleSidebar (toggleSidebar c9State)).sidebarOpen = c9State.sidebarOpen :=
  ⟨C9_double_toggle_roundtrip.2.2.1 (demoNavState 0) rfl,
   C9_double_toggle_roundtrip.1 c9State⟩

/-- C10: under the default configuration updateUrlOnScroll is false, so
neither the resolver nor a full scroll-event invocation ever changes the
URL fragment, for every state; explicit navigation with the hash flag does
write it. -/
theorem C10_passive_scroll_never_writes_hash :
    NAV_CONFIG.updateUrlOnScroll = false
    ∧ (∀ s : NavState, (updateActiveSection NAV_CONFIG s).urlHash = s.urlHash)
    ∧ (∀ s : NavState, (handleScroll NAV_CONFIG s).urlHash = s.urlHash)
    ∧ (scrollToSection NAV_CONFIG (demoNavState 0) ("basics") true).urlHash = some ("basics") :=
  ⟨rfl,
   fun s => updateActiveSection_urlHash NAV_CONFIG s rfl,
   fun s => handleScroll_urlHash NAV_CONFIG s rfl,
   by decide⟩
